import Mathlib

/-!
Shallow embedding of the Argentum command-execution subsystem
(src/command_executor.py, src/telegram_bot.py, src/database.py).

The pure string manipulation of the Python source (str.strip, str.upper,
str.split with maxsplit, slicing of the content markers) is translated to
executable Lean functions on `String`.  Effectful boundaries (the host
shell, the file system, the SSH transport) are modelled as oracles carried
in a `World` / `SshTransport` value, and every Python function that can
raise an exception past its own boundary returns `Except String _`, the
error carrying the exception description.  The Python `dict` results of
`command_executor.py` are modelled by the structure `PyResult`; the
optional "command" key is an `Option String` (the empty-command result of
line 114 of command_executor.py is the only result built without it).

The unicode-aware parts of Python's str.strip/str.split/str.upper are
modelled over the ASCII whitespace set and ASCII case folding; every
keyword the source compares against is ASCII.
-/

namespace Argentum

/-- Python whitespace characters (the default separator set of str.split
and str.strip, restricted to ASCII). -/
def isPyWs (c : Char) : Bool :=
  c = ' ' || c = '\t' || c = '\n' || c = '\r' || c = '\x0b' || c = '\x0c'

/-- Python str.strip(): remove leading and trailing whitespace. -/
def pyStrip (s : String) : String :=
  ⟨((s.data.dropWhile isPyWs).reverse.dropWhile isPyWs).reverse⟩

/-- Python str.upper() (ASCII case folding). -/
def pyUpper (s : String) : String :=
  ⟨s.data.map Char.toUpper⟩

/-- Python full_command.split(maxsplit=1), as used on line 116 of
command_executor.py: skip leading whitespace, take the first
whitespace-free token, skip the separator run, keep the remainder
verbatim.  The caller has already ruled out all-whitespace input, and
reads the remainder as "" when there is no second part, so a pair of
strings models parts[0] / (parts[1] if len(parts) > 1 else ""). -/
def splitMax1 (s : String) : String × String :=
  let afterWs := s.data.dropWhile isPyWs
  (⟨afterWs.takeWhile (fun c => !(isPyWs c))⟩,
   ⟨(afterWs.dropWhile (fun c => !(isPyWs c))).dropWhile isPyWs⟩)

/-- Python args.split(chr(10), 1) together with the two-variable unpacking
of lines 130 and 163 of command_executor.py: `none` models the ValueError
raised when the string has no newline. -/
def splitNl1 (s : String) : Option (String × String) :=
  if s.data.contains '\n' then
    some (⟨s.data.takeWhile (fun c => !(c = '\n'))⟩,
          ⟨(s.data.dropWhile (fun c => !(c = '\n'))).tail⟩)
  else none

/-- Stripping of the content delimiters, lines 133-136 / 166-169 of
command_executor.py: drop a leading marker line and a trailing marker
line when present ("<<CONTENT" plus newline is 10 characters, newline
plus "CONTENT" is 8). -/
def stripMarkers (content : String) : String :=
  let c1 := if content.startsWith "<<CONTENT\n" then content.drop 10 else content
  if c1.endsWith "\nCONTENT" then c1.dropRight 8 else c1

/-- Result dictionary of command_executor.py.  The "command" key is
absent exactly in the empty-command result (line 114), hence an
`Option String`. -/
structure PyResult where
  command : Option String
  stdout : String
  stderr : String
  returncode : Int
  deriving DecidableEq, Repr

/-- Outcome of one subprocess.run invocation (lines 13-32 of
command_executor.py): normal completion with captured streams and exit
status, expiry of the 180-second timeout, or any other raised
exception with its description. -/
inductive ShellOutcome where
  | completed (stdout stderr : String) (returncode : Int)
  | timedOut
  | raised (msg : String)
  deriving DecidableEq, Repr

/-- Oracles for the local machine: what the host shell does for a given
script, the file system contents (association list, most recent write
first), whether writing a path raises (with the exception description),
the directory listing oracle, and the exception text for failed
reads/listings. -/
structure World where
  shellRun : String → ShellOutcome
  fs : List (String × String)
  writeErr : String → Option String
  dirs : String → Option (List String)
  ioErr : String → String

/-- Association-list lookup used to model reading back a written file. -/
def fsLookup : List (String × String) → String → Option String
  | [], _ => none
  | (p, c) :: rest, q => if p = q then some c else fsLookup rest q

/-- Model of _execute_shell (lines 9-32 of command_executor.py). -/
def execute_shell (w : World) (command : String) : PyResult :=
  match w.shellRun command with
  | .completed out err code =>
      { command := some command, stdout := pyStrip out, stderr := pyStrip err,
        returncode := code }
  | .timedOut =>
      { command := some command, stdout := "",
        stderr := "Command timed out after 3 minutes.", returncode := -1 }
  | .raised msg =>
      { command := some command, stdout := "", stderr := msg, returncode := -1 }

/-- Model of _read_file (lines 34-43 of command_executor.py): stdout is
the exact file content on success; any failure yields returncode 1 with
the exception text. -/
def read_file (w : World) (path : String) : PyResult :=
  match fsLookup w.fs path with
  | some content =>
      { command := some ("READ_FILE " ++ path), stdout := content, stderr := "",
        returncode := 0 }
  | none =>
      { command := some ("READ_FILE " ++ path), stdout := "",
        stderr := w.ioErr path, returncode := 1 }

/-- Model of _write_file (lines 45-57 of command_executor.py): on success
the file system is updated and a confirmation message is produced; on
failure returncode 1 with the exception text and an unchanged world. -/
def write_file (w : World) (path content : String) : PyResult × World :=
  match w.writeErr path with
  | some msg =>
      ({ command := some ("WRITE_FILE " ++ path), stdout := "", stderr := msg,
         returncode := 1 }, w)
  | none =>
      ({ command := some ("WRITE_FILE " ++ path),
         stdout := "File '" ++ path ++ "' written successfully.",
         stderr := "", returncode := 0 },
       { w with fs := (path, content) :: w.fs })

/-- Model of _list_files (lines 59-67 of command_executor.py). -/
def list_files (w : World) (path : String) : PyResult :=
  match w.dirs path with
  | some names =>
      { command := some ("LIST_FILES " ++ path),
        stdout := String.intercalate "\n" names, stderr := "", returncode := 0 }
  | none =>
      { command := some ("LIST_FILES " ++ path), stdout := "",
        stderr := w.ioErr path, returncode := 1 }

/-- Oracles for one remote invocation with given ssh_creds: `establish`
is key loading plus client.connect (an error is every failure before a
session exists); `exec` is exec_command, the stream reads and
recv_exit_status (an error is any exception raised there, including the
timeout); `sftpPut` is open_sftp plus the sftp write (lines 153-156). -/
structure SshTransport where
  establish : Except String Unit
  exec : String → Except String (String × String × Int)
  sftpPut : String → String → Except String Unit

/-- Connection bookkeeping of one remote call: whether a connection was
successfully established, and whether client.close() was invoked before
returning. -/
structure SshTrace where
  opened : Bool
  closed : Bool
  deriving DecidableEq, Repr

/-- Trace of a call that touched no SSH connection. -/
def noTrace : SshTrace := { opened := false, closed := false }

/-- Model of _execute_ssh (lines 70-105 of command_executor.py).
client.close() (line 95) is reached only when establishment and the
exec phase both succeed; the except handler (lines 103-105) returns
returncode -1 without closing. -/
def execute_ssh (command : String) (t : SshTransport) : PyResult × SshTrace :=
  match t.establish with
  | .error e =>
      ({ command := some command, stdout := "", stderr := e, returncode := -1 },
       noTrace)
  | .ok _ =>
    match t.exec command with
    | .error e =>
        ({ command := some command, stdout := "", stderr := e, returncode := -1 },
         { opened := true, closed := false })
    | .ok (out, err, code) =>
        ({ command := some command, stdout := pyStrip out, stderr := pyStrip err,
           returncode := code },
         { opened := true, closed := true })

/-- Model of the remote WRITE_FILE branch of execute_command (lines
138-161 of command_executor.py): SFTP write wrapped in one try whose
except handler returns returncode 1 without closing the client. -/
def ssh_write_file (path content : String) (t : SshTransport) : PyResult × SshTrace :=
  match t.establish with
  | .error e =>
      ({ command := some ("WRITE_FILE " ++ path), stdout := "", stderr := e,
         returncode := 1 }, noTrace)
  | .ok _ =>
    match t.sftpPut path content with
    | .error e =>
        ({ command := some ("WRITE_FILE " ++ path), stdout := "", stderr := e,
           returncode := 1 }, { opened := true, closed := false })
    | .ok _ =>
        ({ command := some ("WRITE_FILE " ++ path),
           stdout := "File '" ++ path ++ "' written successfully.",
           stderr := "", returncode := 0 },
         { opened := true, closed := true })

/-- Model of execute_command (lines 108-179 of command_executor.py).  The
`ssh` argument models the optional ssh_creds together with the network
behaviour they select.  A `.error` value models an exception escaping
execute_command itself: the only such site is the two-variable unpacking
of line 130, which sits outside the surrounding try block. -/
def execute_command (w : World) (ssh : Option SshTransport) (full_command : String) :
    Except String (PyResult × World × SshTrace) :=
  if pyStrip full_command = "" then
    .ok ({ command := none, stdout := "", stderr := "Empty command.",
           returncode := 1 }, w, noTrace)
  else if pyUpper (splitMax1 full_command).1 = "SHELL" then
    match ssh with
    | some t =>
        .ok ((execute_ssh (splitMax1 full_command).2 t).1, w,
             (execute_ssh (splitMax1 full_command).2 t).2)
    | none => .ok (execute_shell w (splitMax1 full_command).2, w, noTrace)
  else if pyUpper (splitMax1 full_command).1 = "READ_FILE" then
    match ssh with
    | some t =>
        .ok ((execute_ssh ("cat " ++ (splitMax1 full_command).2) t).1, w,
             (execute_ssh ("cat " ++ (splitMax1 full_command).2) t).2)
    | none => .ok (read_file w (splitMax1 full_command).2, w, noTrace)
  else if pyUpper (splitMax1 full_command).1 = "WRITE_FILE" then
    match ssh with
    | some t =>
      match splitNl1 (splitMax1 full_command).2 with
      | none => .error "ValueError: not enough values to unpack (expected 2, got 1)"
      | some (p, c) =>
          .ok ((ssh_write_file (pyStrip p) (stripMarkers c) t).1, w,
               (ssh_write_file (pyStrip p) (stripMarkers c) t).2)
    | none =>
      match splitNl1 (splitMax1 full_command).2 with
      | none =>
          .ok ({ command := some ("WRITE_FILE " ++ (splitMax1 full_command).2),
                 stdout := "",
                 stderr := "Invalid WRITE_FILE format. Missing path or content.",
                 returncode := 1 }, w, noTrace)
      | some (p, c) =>
          .ok ((write_file w (pyStrip p) (stripMarkers c)).1,
               (write_file w (pyStrip p) (stripMarkers c)).2, noTrace)
  else if pyUpper (splitMax1 full_command).1 = "LIST_FILES" then
    match ssh with
    | some t =>
        .ok ((execute_ssh
                ("ls -F " ++ (if (splitMax1 full_command).2 = "" then "."
                              else (splitMax1 full_command).2)) t).1, w,
             (execute_ssh
                ("ls -F " ++ (if (splitMax1 full_command).2 = "" then "."
                              else (splitMax1 full_command).2)) t).2)
    | none =>
        .ok (list_files w (if (splitMax1 full_command).2 = "" then "."
                           else (splitMax1 full_command).2), w, noTrace)
  else
    .ok (execute_shell w full_command, w, noTrace)

/-- Model of execute_commands (lines 181-188 of command_executor.py): one
execute_command call per list element, results collected in order; an
exception escaping execute_command aborts the batch. -/
def execute_commands (ssh : Option SshTransport) :
    World → List String → Except String (List PyResult × World)
  | w, [] => .ok ([], w)
  | w, c :: cs =>
    match execute_command w ssh c with
    | .error e => .error e
    | .ok (r, w2, _) =>
      match execute_commands ssh w2 cs with
      | .error e => .error e
      | .ok (rs, w3) => .ok (r :: rs, w3)

/-- Session status abstraction for run_programmer_mode_session
(telegram_bot.py lines 173-221): which exit path the loop took —
`completed` for the early return of lines 190-193, `stepLimitReached`
for falling off the loop into lines 220-221. -/
inductive SessionStatus where
  | completed
  | stepLimitReached
  deriving DecidableEq, Repr

/-- Observable outcome of one autonomous session: planner calls made,
execute_command invocations, the accumulated full_log, the exit path
taken, and what db.update_task_log persisted — the log together with the
status string the UPDATE statement writes (database.py lines 211-223
hard-code the status to "completed"). -/
structure SessionOutcome where
  plannerCalls : Nat
  executions : Nat
  log : List PyResult
  status : SessionStatus
  persisted : Option (List PyResult × String)
  deriving DecidableEq, Repr

/-- Step ceiling max_steps = 20 of telegram_bot.py line 181. -/
def max_steps : Nat := 20

/-- Loop-exit test of telegram_bot.py line 190: the response is falsy
(empty) or strips and uppercases to TASK_COMPLETE. -/
def isStopResponse (resp : String) : Bool :=
  resp = "" || pyUpper (pyStrip resp) = "TASK_COMPLETE"

/-- Rendering of last_command_output (telegram_bot.py lines 199-204).
Accessing the "command" key of the empty-command result raises a
KeyError, modelled as the error case. -/
def renderOutput (r : PyResult) : Except String String :=
  match r.command with
  | none => .error "KeyError: command"
  | some c =>
      .ok ("Command: " ++ c ++ "\n" ++ "Return Code: " ++ toString r.returncode
           ++ "\n" ++ "STDOUT:\n" ++ r.stdout ++ "\n" ++ "STDERR:\n" ++ r.stderr
           ++ "\n")

/-- One loop of run_programmer_mode_session (telegram_bot.py lines
183-218), with `fuel` the remaining iterations of range(max_steps), `i`
the planner calls already made, `execs` the execute_command calls already
made, and `log` the accumulated full_log.  The planner is the external
Gemini collaborator; its inputs (task description, the growing history)
are a deterministic function of the step index and the run so far, so a
function of the step index and last_command_output models an arbitrary
collaborator.  An `.error` value models an exception escaping the
session coroutine, which then persists nothing. -/
def sessionLoop (planner : Nat → Option String → String) :
    Nat → Nat → Nat → Option String → List PyResult → World →
      Except String SessionOutcome
  | 0, i, execs, _, log, _ =>
      .ok { plannerCalls := i, executions := execs, log := log,
            status := .stepLimitReached, persisted := some (log, "completed") }
  | fuel + 1, i, execs, lastOutput, log, w =>
      if isStopResponse (planner i lastOutput) then
        .ok { plannerCalls := i + 1, executions := execs, log := log,
              status := .completed, persisted := some (log, "completed") }
      else
        match execute_command w none (planner i lastOutput) with
        | .error e => .error e
        | .ok (r, w2, _) =>
          match renderOutput r with
          | .error e => .error e
          | .ok rendered =>
              sessionLoop planner fuel (i + 1) (execs + 1) (some rendered)
                (log ++ [r]) w2

/-- Model of run_programmer_mode_session (telegram_bot.py lines
173-221). -/
def run_programmer_mode_session (planner : Nat → Option String → String)
    (w : World) : Except String SessionOutcome :=
  sessionLoop planner max_steps 0 0 none [] w

/-- Concrete local world whose shell succeeds silently, whose file
system starts empty and accepts every write, and with no listable
directories. -/
def w0 : World :=
  { shellRun := fun _ => .completed "" "" 0
    fs := []
    writeErr := fun _ => none
    dirs := fun _ => none
    ioErr := fun _ => "No such file or directory" }

/-- Concrete world whose shell echoes a marker, to make shell-backend
execution observable. -/
def wShellRan : World :=
  { w0 with shellRun := fun _ => .completed "ran by shell" "" 0 }

/-- Concrete world whose shell always hits the 180-second timeout. -/
def wTimeout : World :=
  { w0 with shellRun := fun _ => .timedOut }

/-- Concrete transport on which every phase succeeds. -/
def tOk : SshTransport :=
  { establish := .ok ()
    exec := fun _ => .ok ("", "", 0)
    sftpPut := fun _ _ => .ok () }

/-- Concrete transport whose connection attempt is refused. -/
def tRefused : SshTransport :=
  { establish := .error "Connection refused"
    exec := fun _ => .error "Connection refused"
    sftpPut := fun _ _ => .error "Connection refused" }

/-- Concrete transport that connects but whose exec and sftp phases
raise (for example a timeout while reading the remote streams). -/
def tLeak : SshTransport :=
  { establish := .ok ()
    exec := fun _ => .error "Connection reset during exec"
    sftpPut := fun _ _ => .error "Connection reset during sftp" }

theorem execute_shell_command (w : World) (c : String) :
    (execute_shell w c).command = some c := by
  unfold execute_shell
  cases w.shellRun c <;> rfl

theorem read_file_command (w : World) (p : String) :
    (read_file w p).command = some ("READ_FILE " ++ p) := by
  unfold read_file
  cases fsLookup w.fs p <;> rfl

theorem write_file_command (w : World) (p c : String) :
    ((write_file w p c).1).command = some ("WRITE_FILE " ++ p) := by
  unfold write_file
  cases w.writeErr p <;> rfl

theorem list_files_command (w : World) (p : String) :
    (list_files w p).command = some ("LIST_FILES " ++ p) := by
  unfold list_files
  cases w.dirs p <;> rfl

theorem execute_ssh_command (c : String) (t : SshTransport) :
    ((execute_ssh c t).1).command = some c := by
  unfold execute_ssh
  cases t.establish with
  | error e => rfl
  | ok u =>
    cases t.exec c with
    | error e => rfl
    | ok v =>
      obtain ⟨out, err, code⟩ := v
      rfl

theorem ssh_write_file_command (p c : String) (t : SshTransport) :
    ((ssh_write_file p c t).1).command = some ("WRITE_FILE " ++ p) := by
  unfold ssh_write_file
  cases t.establish with
  | error e => rfl
  | ok u =>
    cases t.sftpPut p c with
    | error e => rfl
    | ok u2 => rfl

theorem execute_command_local_ok (w : World) (s : String) (hne : pyStrip s ≠ "") :
    ∃ r w2, execute_command w none s = .ok (r, w2, noTrace) ∧ r.command ≠ none := by
  unfold execute_command
  rw [if_neg hne]
  by_cases h1 : pyUpper (splitMax1 s).1 = "SHELL"
  · rw [if_pos h1]
    exact ⟨_, _, rfl, by simp [execute_shell_command]⟩
  rw [if_neg h1]
  by_cases h2 : pyUpper (splitMax1 s).1 = "READ_FILE"
  · rw [if_pos h2]
    exact ⟨_, _, rfl, by simp [read_file_command]⟩
  rw [if_neg h2]
  by_cases h3 : pyUpper (splitMax1 s).1 = "WRITE_FILE"
  · rw [if_pos h3]
    cases hsp : splitNl1 (splitMax1 s).2 with
    | none =>
      exact ⟨_, _, rfl, by simp⟩
    | some pc =>
      obtain ⟨p, c⟩ := pc
      exact ⟨_, _, rfl, by simp [write_file_command]⟩
  rw [if_neg h3]
  by_cases h4 : pyUpper (splitMax1 s).1 = "LIST_FILES"
  · rw [if_pos h4]
    exact ⟨_, _, rfl, by simp [list_files_command]⟩
  rw [if_neg h4]
  exact ⟨_, _, rfl, by simp [execute_shell_command]⟩

theorem sessionLoop_stop (planner : Nat → Option String → String)
    (fuel i execs : Nat) (lo : Option String) (log : List PyResult) (w : World)
    (h : isStopResponse (planner i lo) = true) :
    sessionLoop planner (fuel + 1) i execs lo log w =
      .ok { plannerCalls := i + 1, executions := execs, log := log,
            status := .completed, persisted := some (log, "completed") } := by
  unfold sessionLoop
  rw [h]
  simp

theorem sessionLoop_go (planner : Nat → Option String → String)
    (fuel i execs : Nat) (lo : Option String) (log : List PyResult) (w : World)
    (hstop : isStopResponse (planner i lo) = false)
    (r : PyResult) (w2 : World) (tr : SshTrace)
    (hexec : execute_command w none (planner i lo) = .ok (r, w2, tr))
    (rendered : String) (hrender : renderOutput r = .ok rendered) :
    sessionLoop planner (fuel + 1) i execs lo log w =
      sessionLoop planner fuel (i + 1) (execs + 1) (some rendered) (log ++ [r]) w2 := by
  conv_lhs => unfold sessionLoop
  rw [hstop, if_neg Bool.false_ne_true]
  split
  · rename_i e heq
    rw [hexec] at heq
    exact Except.noConfusion heq
  · rename_i r2 w3 tr2 heq
    rw [hexec] at heq
    injection heq with heq1
    injection heq1 with ha hb
    injection hb with hb1 hb2
    subst ha
    subst hb1
    split
    · rename_i e heq2
      rw [hrender] at heq2
      exact Except.noConfusion heq2
    · rename_i rend heq2
      rw [hrender] at heq2
      injection heq2 with h
      subst h
      rfl

theorem sessionLoop_never_stop_status (planner : Nat → Option String → String)
    (h : ∀ i lo, isStopResponse (planner i lo) = false) :
    ∀ fuel i execs lo log w o, sessionLoop planner fuel i execs lo log w = .ok o →
      o.status = .stepLimitReached := by
  intro fuel
  induction fuel with
  | zero =>
    intro i execs lo log w o ho
    unfold sessionLoop at ho
    simp only [Except.ok.injEq] at ho
    subst ho
    rfl
  | succ fuel ih =>
    intro i execs lo log w o ho
    unfold sessionLoop at ho
    rw [h i lo, if_neg Bool.false_ne_true] at ho
    split at ho
    · exact Except.noConfusion ho
    · rename_i r w3 tr heq
      split at ho
      · exact Except.noConfusion ho
      · rename_i rend hrend
        exact ih (i + 1) (execs + 1) (some rend) (log ++ [r]) w3 o ho

theorem sessionLoop_no_stop (planner : Nat → Option String → String)
    (h : ∀ i lo, pyStrip (planner i lo) ≠ "" ∧
         pyUpper (pyStrip (planner i lo)) ≠ "TASK_COMPLETE") :
    ∀ fuel i execs lo log w, ∃ o,
      sessionLoop planner fuel i execs lo log w = .ok o ∧
      o.plannerCalls = i + fuel ∧ o.executions = execs + fuel ∧
      o.log.length = log.length + fuel ∧ o.status = .stepLimitReached ∧
      o.persisted = some (o.log, "completed") := by
  intro fuel
  induction fuel with
  | zero =>
    intro i execs lo log w
    exact ⟨_, rfl, by simp, by simp, by simp, rfl, rfl⟩
  | succ fuel ih =>
    intro i execs lo log w
    obtain ⟨hne1, hne2⟩ := h i lo
    have hne0 : planner i lo ≠ "" := by
      intro he
      exact hne1 (by rw [he]; rfl)
    have hst : isStopResponse (planner i lo) = false := by
      simp [isStopResponse, hne0, hne2]
    obtain ⟨r, w2, hexec, hcmd⟩ := execute_command_local_ok w (planner i lo) hne1
    obtain ⟨c, hc⟩ : ∃ c, r.command = some c := by
      cases hr : r.command with
      | none => exact absurd hr hcmd
      | some c => exact ⟨c, rfl⟩
    have hrend : renderOutput r =
        .ok ("Command: " ++ c ++ "\n" ++ "Return Code: " ++ toString r.returncode
             ++ "\n" ++ "STDOUT:\n" ++ r.stdout ++ "\n" ++ "STDERR:\n" ++ r.stderr
             ++ "\n") := by
      unfold renderOutput
      rw [hc]
    rw [sessionLoop_go planner fuel i execs lo log w hst r w2 noTrace hexec _ hrend]
    obtain ⟨o, ho, h1, h2, h3, h4, h5⟩ :=
      ih (i + 1) (execs + 1)
        (some ("Command: " ++ c ++ "\n" ++ "Return Code: " ++ toString r.returncode
               ++ "\n" ++ "STDOUT:\n" ++ r.stdout ++ "\n" ++ "STDERR:\n" ++ r.stderr
               ++ "\n"))
        (log ++ [r]) w2
    refine ⟨o, ho, by omega, by omega, ?_, h4, h5⟩
    simp only [List.length_append, List.length_cons, List.length_nil] at h3
    omega

/-- C1: the claim says execute_command, with or without a credential,
always returns exactly one result and never raises, in particular for a
malformed WRITE_FILE whose remainder has no newline.  The code violates
this on the remote path: with a credential the two-variable unpacking of
line 130 of command_executor.py sits outside the try block, so the
malformed directive raises a ValueError past the Executor, while the
local path (lines 162-172) catches the same ValueError and returns the
descriptive exit_code 1 result, showing the intended behaviour. -/
theorem c1_malformed_remote_write_raises :
    execute_command w0 (some tOk) "WRITE_FILE /tmp/x no newline" =
      .error "ValueError: not enough values to unpack (expected 2, got 1)" ∧
    (execute_command w0 none "WRITE_FILE /tmp/x no newline").map (fun x => x.1) =
      .ok { command := some "WRITE_FILE /tmp/x no newline", stdout := "",
            stderr := "Invalid WRITE_FILE format. Missing path or content.",
            returncode := 1 } :=
  ⟨rfl, rfl⟩

/-- C10: an empty or whitespace-only input yields, with no execution, a
result with returncode 1 and stderr exactly "Empty command.", carrying no
command field; every other directive that produces a result carries a
command field. -/
theorem c10_empty_command (w : World) (ssh : Option SshTransport) (s : String) :
    (pyStrip s = "" →
      execute_command w ssh s =
        .ok ({ command := none, stdout := "", stderr := "Empty command.",
               returncode := 1 }, w, noTrace)) ∧
    (pyStrip s ≠ "" → ∀ res, execute_command w ssh s = .ok res →
      res.1.command ≠ none) := by
  constructor
  · intro hs
    unfold execute_command
    rw [if_pos hs]
  · intro hne res hok
    unfold execute_command at hok
    rw [if_neg hne] at hok
    repeat' split at hok
    all_goals
      first
      | exact Except.noConfusion hok
      | (simp only [Except.ok.injEq] at hok
         subst hok
         simp [execute_shell_command, read_file_command, write_file_command,
               list_files_command, execute_ssh_command, ssh_write_file_command])

/-- C10 witness: the whitespace-only input "   " takes the empty-command
path. -/
theorem c10_empty_command_witness :
    pyStrip "   " = "" ∧
    execute_command w0 none "   " =
      .ok ({ command := none, stdout := "", stderr := "Empty command.",
             returncode := 1 }, w0, noTrace) :=
  ⟨by decide, (c10_empty_command w0 none "   ").1 (by decide)⟩

/-- C9: a local Shell directive whose process hits the 180-second
timeout returns (rather than hanging) a result with returncode -1, a
timeout-stating stderr and empty stdout; the same holds for an
Unrecognized directive, which is executed as a shell script. -/
theorem c9_shell_timeout (w : World) (full : String) (hne : pyStrip full ≠ "") :
    (pyUpper (splitMax1 full).1 = "SHELL" →
      w.shellRun (splitMax1 full).2 = .timedOut →
      execute_command w none full =
        .ok ({ command := some (splitMax1 full).2, stdout := "",
               stderr := "Command timed out after 3 minutes.", returncode := -1 },
             w, noTrace)) ∧
    (pyUpper (splitMax1 full).1 ≠ "SHELL" →
     pyUpper (splitMax1 full).1 ≠ "READ_FILE" →
     pyUpper (splitMax1 full).1 ≠ "WRITE_FILE" →
     pyUpper (splitMax1 full).1 ≠ "LIST_FILES" →
      w.shellRun full = .timedOut →
      execute_command w none full =
        .ok ({ command := some full, stdout := "",
               stderr := "Command timed out after 3 minutes.", returncode := -1 },
             w, noTrace)) := by
  constructor
  · intro hk ht
    unfold execute_command
    rw [if_neg hne, if_pos hk]
    unfold execute_shell
    rw [ht]
  · intro h1 h2 h3 h4 ht
    unfold execute_command
    rw [if_neg hne, if_neg h1, if_neg h2, if_neg h3, if_neg h4]
    unfold execute_shell
    rw [ht]

/-- C9 witness: a concrete Shell directive on a world whose shell always
times out. -/
theorem c9_shell_timeout_witness :
    pyStrip "SHELL sleep 999" ≠ "" ∧
    execute_command wTimeout none "SHELL sleep 999" =
      .ok ({ command := some "sleep 999", stdout := "",
             stderr := "Command timed out after 3 minutes.", returncode := -1 },
           wTimeout, noTrace) :=
  ⟨by decide, (c9_shell_timeout wTimeout "SHELL sleep 999" (by decide)).1
    (by decide) rfl⟩

/-- C8: writing hello to /tmp/x through the delimited WRITE_FILE
directive succeeds with returncode 0 (the content delimiters are
stripped), and a subsequent READ_FILE of the same path returns stdout
exactly hello with returncode 0 — the content round-trips. -/
theorem c8_round_trip (w : World) (h : w.writeErr "/tmp/x" = none) :
    ∃ r1 w1 tr1,
      execute_command w none "WRITE_FILE /tmp/x\n<<CONTENT\nhello\nCONTENT" =
        .ok (r1, w1, tr1) ∧ r1.returncode = 0 ∧
      ∃ r2 w2 tr2,
        execute_command w1 none "READ_FILE /tmp/x" = .ok (r2, w2, tr2) ∧
        r2.stdout = "hello" ∧ r2.returncode = 0 := by
  have h1 : execute_command w none "WRITE_FILE /tmp/x\n<<CONTENT\nhello\nCONTENT" =
      .ok ((write_file w "/tmp/x" "hello").1, (write_file w "/tmp/x" "hello").2,
           noTrace) := by
    with_unfolding_all rfl
  have h2 : write_file w "/tmp/x" "hello" =
      ({ command := some "WRITE_FILE /tmp/x",
         stdout := "File '/tmp/x' written successfully.", stderr := "",
         returncode := 0 },
       { w with fs := ("/tmp/x", "hello") :: w.fs }) := by
    unfold write_file
    rw [h]
    with_unfolding_all rfl
  rw [h2] at h1
  have h3 : execute_command { w with fs := ("/tmp/x", "hello") :: w.fs } none
      "READ_FILE /tmp/x" =
      .ok ({ command := some "READ_FILE /tmp/x", stdout := "hello", stderr := "",
             returncode := 0 },
           { w with fs := ("/tmp/x", "hello") :: w.fs }, noTrace) := by
    with_unfolding_all rfl
  exact ⟨_, _, _, h1, rfl, _, _, _, h3, rfl, rfl⟩

/-- C8 witness: the round trip on the concrete writable world. -/
theorem c8_round_trip_witness :
    w0.writeErr "/tmp/x" = none ∧
    ∃ r1 w1 tr1,
      execute_command w0 none "WRITE_FILE /tmp/x\n<<CONTENT\nhello\nCONTENT" =
        .ok (r1, w1, tr1) ∧ r1.returncode = 0 ∧
      ∃ r2 w2 tr2,
        execute_command w1 none "READ_FILE /tmp/x" = .ok (r2, w2, tr2) ∧
        r2.stdout = "hello" ∧ r2.returncode = 0 :=
  ⟨rfl, c8_round_trip w0 rfl⟩

/-- C5 counterexample: a remote WRITE_FILE whose transport fails before
the target could run yields returncode 1 (the except handler of line 161
of command_executor.py), not the claimed -1: the transport failure is
indistinguishable from the file-I/O convention. -/
theorem c5_counterexample :
    (execute_command w0 (some tRefused)
        "WRITE_FILE /tmp/x\n<<CONTENT\nhi\nCONTENT").map (fun x => x.1) =
      .ok { command := some "WRITE_FILE /tmp/x", stdout := "",
            stderr := "Connection refused", returncode := 1 } ∧
    ¬ ((1 : Int) = -1) :=
  ⟨by with_unfolding_all rfl, by decide⟩

/-- C5 amended: connection, authentication, or transport errors before
the target process could run collapse to exit_code -1 with the error in
stderr for the SHELL, READ_FILE and LIST_FILES kinds (all routed through
_execute_ssh), but the remote WRITE_FILE path maps the same transport
failure to exit_code 1, indistinguishable from the file-I/O convention. -/
theorem c5_amended (w : World) (t : SshTransport) (e full : String)
    (hest : t.establish = .error e) (hne : pyStrip full ≠ "") :
    ((pyUpper (splitMax1 full).1 = "SHELL" ∨
      pyUpper (splitMax1 full).1 = "READ_FILE" ∨
      pyUpper (splitMax1 full).1 = "LIST_FILES") →
      ∃ r, execute_command w (some t) full = .ok (r, w, noTrace) ∧
        r.returncode = -1 ∧ r.stderr = e) ∧
    (pyUpper (splitMax1 full).1 = "WRITE_FILE" →
      ∀ p c, splitNl1 (splitMax1 full).2 = some (p, c) →
      ∃ r, execute_command w (some t) full = .ok (r, w, noTrace) ∧
        r.returncode = 1 ∧ r.stderr = e) := by
  have hes : ∀ cmd, execute_ssh cmd t =
      ({ command := some cmd, stdout := "", stderr := e, returncode := -1 },
       noTrace) := by
    intro cmd
    unfold execute_ssh
    rw [hest]
  constructor
  · intro hk
    rcases hk with hk | hk | hk
    · have hssh : execute_command w (some t) full =
          .ok ((execute_ssh (splitMax1 full).2 t).1, w,
               (execute_ssh (splitMax1 full).2 t).2) := by
        unfold execute_command
        rw [if_neg hne, if_pos hk]
      rw [hes] at hssh
      exact ⟨_, hssh, rfl, rfl⟩
    · have hssh : execute_command w (some t) full =
          .ok ((execute_ssh ("cat " ++ (splitMax1 full).2) t).1, w,
               (execute_ssh ("cat " ++ (splitMax1 full).2) t).2) := by
        unfold execute_command
        rw [if_neg hne, hk,
            if_neg (by decide : ¬ ("READ_FILE" : String) = "SHELL"), if_pos rfl]
      rw [hes] at hssh
      exact ⟨_, hssh, rfl, rfl⟩
    · have hssh : execute_command w (some t) full =
          .ok ((execute_ssh
                  ("ls -F " ++ (if (splitMax1 full).2 = "" then "."
                                else (splitMax1 full).2)) t).1, w,
               (execute_ssh
                  ("ls -F " ++ (if (splitMax1 full).2 = "" then "."
                                else (splitMax1 full).2)) t).2) := by
        unfold execute_command
        rw [if_neg hne, hk,
            if_neg (by decide : ¬ ("LIST_FILES" : String) = "SHELL"),
            if_neg (by decide : ¬ ("LIST_FILES" : String) = "READ_FILE"),
            if_neg (by decide : ¬ ("LIST_FILES" : String) = "WRITE_FILE"),
            if_pos rfl]
      rw [hes] at hssh
      exact ⟨_, hssh, rfl, rfl⟩
  · intro hk p c hsp
    have hssh : execute_command w (some t) full =
        .ok ((ssh_write_file (pyStrip p) (stripMarkers c) t).1, w,
             (ssh_write_file (pyStrip p) (stripMarkers c) t).2) := by
      unfold execute_command
      rw [if_neg hne, hk,
          if_neg (by decide : ¬ ("WRITE_FILE" : String) = "SHELL"),
          if_neg (by decide : ¬ ("WRITE_FILE" : String) = "READ_FILE"),
          if_pos rfl, hsp]
    have hws : ssh_write_file (pyStrip p) (stripMarkers c) t =
        ({ command := some ("WRITE_FILE " ++ pyStrip p), stdout := "",
           stderr := e, returncode := 1 }, noTrace) := by
      unfold ssh_write_file
      rw [hest]
    rw [hws] at hssh
    exact ⟨_, hssh, rfl, rfl⟩

/-- C5 amended witness: a refused connection gives -1 for a remote SHELL
directive and 1 for a remote WRITE_FILE directive. -/
theorem c5_amended_witness :
    tRefused.establish = .error "Connection refused" ∧
    pyStrip "SHELL ls" ≠ "" ∧
    ∃ r, execute_command w0 (some tRefused) "SHELL ls" = .ok (r, w0, noTrace) ∧
      r.returncode = -1 ∧ r.stderr = "Connection refused" :=
  ⟨rfl, by decide,
   (c5_amended w0 tRefused "Connection refused" "SHELL ls" rfl (by decide)).1
     (Or.inl (by decide))⟩

/-- C6 counterexample: with a credential present and a transport that
connects but whose exec phase raises, the Executor returns with the
connection opened and never closed — client.close() (line 95 of
command_executor.py) is unreachable from the except handler. -/
theorem c6_counterexample :
    (execute_command w0 (some tLeak) "SHELL ls").map (fun x => x.2.2) =
      .ok { opened := true, closed := false } ∧
    ({ opened := true, closed := false } : SshTrace).closed = false :=
  ⟨by with_unfolding_all rfl, rfl⟩

/-- C6 amended: the remote connection is closed before the call returns
on every fully successful path, and a failure during establishment opens
no connection; but (per the counterexample) an error after establishment
returns without closing. -/
theorem c6_amended :
    (∀ c (t : SshTransport) out err code, t.establish = .ok () →
      t.exec c = .ok (out, err, code) →
      (execute_ssh c t).2 = { opened := true, closed := true }) ∧
    (∀ p c (t : SshTransport), t.establish = .ok () → t.sftpPut p c = .ok () →
      (ssh_write_file p c t).2 = { opened := true, closed := true }) ∧
    (∀ c (t : SshTransport) e, t.establish = .error e →
      (execute_ssh c t).2 = noTrace) ∧
    (∀ p c (t : SshTransport) e, t.establish = .error e →
      (ssh_write_file p c t).2 = noTrace) := by
  refine ⟨?_, ?_, ?_, ?_⟩
  · intro c t out err code h1 h2
    unfold execute_ssh
    rw [h1, h2]
  · intro p c t h1 h2
    unfold ssh_write_file
    rw [h1, h2]
  · intro c t e h1
    unfold execute_ssh
    rw [h1]
  · intro p c t e h1
    unfold ssh_write_file
    rw [h1]

/-- C6 amended witness: the all-success transport closes its
connection. -/
theorem c6_amended_witness :
    tOk.establish = .ok () ∧ tOk.exec "ls" = .ok ("", "", 0) ∧
    (execute_ssh "ls" tOk).2 = { opened := true, closed := true } :=
  ⟨rfl, rfl, c6_amended.1 "ls" tOk "" "" 0 rfl rfl⟩

/-- C3 counterexample: the batch path does not skip blank directives —
for the input list holding one empty directive the result list has
length 1 (an Empty command error result), while the number of non-blank
directives is 0. -/
theorem c3_counterexample :
    (execute_commands none w0 [""]).map (fun p => p.1) =
      .ok [{ command := none, stdout := "", stderr := "Empty command.",
             returncode := 1 }] ∧
    List.countP (fun c => !(pyStrip c == "")) [""] = 0 ∧
    ¬ ((1 : Nat) = 0) :=
  ⟨by with_unfolding_all rfl, by decide, by decide⟩

/-- C3 amended: the batch path returns one result per input directive,
in input order — length equals the total number of directives; a blank
directive is not skipped but contributes the Empty command error result
(blank filtering is done by the standard-mode caller before the batch
path is invoked). -/
theorem c3_amended (cmds : List String) (w : World) (rs : List PyResult)
    (w2 : World) (h : execute_commands none w cmds = .ok (rs, w2)) :
    rs.length = cmds.length ∧
    ∀ i (hi : i < cmds.length) (hi' : i < rs.length),
      pyStrip (cmds.get ⟨i, hi⟩) = "" →
      rs.get ⟨i, hi'⟩ = { command := none, stdout := "",
                          stderr := "Empty command.", returncode := 1 } := by
  induction cmds generalizing w rs w2 with
  | nil =>
    unfold execute_commands at h
    simp only [Except.ok.injEq, Prod.mk.injEq] at h
    obtain ⟨h1, h2⟩ := h
    subst h1
    exact ⟨rfl, fun i hi => absurd hi (by simp)⟩
  | cons c cs ih =>
    unfold execute_commands at h
    split at h
    · exact Except.noConfusion h
    · rename_i r w3 tr heq
      split at h
      · exact Except.noConfusion h
      · rename_i rs' w4 heq2
        simp only [Except.ok.injEq, Prod.mk.injEq] at h
        obtain ⟨h1, h2⟩ := h
        subst h1
        obtain ⟨ihl, ihi⟩ := ih w3 rs' w4 heq2
        constructor
        · simp [ihl]
        · intro i hi hi' hblank
          match i with
          | 0 =>
            have hb : pyStrip c = "" := hblank
            have hemp : execute_command w none c =
                .ok ({ command := none, stdout := "", stderr := "Empty command.",
                       returncode := 1 }, w, noTrace) := by
              unfold execute_command
              rw [if_pos hb]
            rw [hemp] at heq
            simp only [Except.ok.injEq, Prod.mk.injEq] at heq
            obtain ⟨hr, -, -⟩ := heq
            exact hr.symm
          | Nat.succ j =>
            exact ihi j (by simpa using hi) (by simpa using hi') hblank

/-- C3 amended witness: a two-element batch with one blank directive
yields two results in order, the first being the Empty command error
result. -/
theorem c3_amended_witness :
    ([{ command := none, stdout := "", stderr := "Empty command.",
        returncode := 1 },
      { command := some "true", stdout := "", stderr := "",
        returncode := 0 }] : List PyResult).length =
      (["", "SHELL true"] : List String).length ∧
    ∀ i (hi : i < (["", "SHELL true"] : List String).length)
      (hi' : i < ([{ command := none, stdout := "", stderr := "Empty command.",
                     returncode := 1 },
                   { command := some "true", stdout := "", stderr := "",
                     returncode := 0 }] : List PyResult).length),
      pyStrip ((["", "SHELL true"] : List String).get ⟨i, hi⟩) = "" →
      ([{ command := none, stdout := "", stderr := "Empty command.",
          returncode := 1 },
        { command := some "true", stdout := "", stderr := "",
          returncode := 0 }] : List PyResult).get ⟨i, hi'⟩ =
        { command := none, stdout := "", stderr := "Empty command.",
          returncode := 1 } :=
  c3_amended ["", "SHELL true"] w0 _ w0 (by with_unfolding_all rfl)

/-- C4: an autonomous session whose first planner response is empty or
equals TASK_COMPLETE up to case and surrounding whitespace terminates
after exactly one planner call, zero executions, with status completed
(the accumulated empty log persisted); and no session whose responses
are never empty and never TASK_COMPLETE ends with status completed —
this is the only successful termination condition of the loop. -/
theorem c4_completed_termination (planner : Nat → Option String → String)
    (w : World)
    (h : planner 0 none = "" ∨
         pyUpper (pyStrip (planner 0 none)) = "TASK_COMPLETE") :
    run_programmer_mode_session planner w =
      .ok { plannerCalls := 1, executions := 0, log := [],
            status := .completed, persisted := some ([], "completed") } ∧
    ∀ (p2 : Nat → Option String → String) (w2 : World),
      (∀ i lo, p2 i lo ≠ "" ∧ pyUpper (pyStrip (p2 i lo)) ≠ "TASK_COMPLETE") →
      ∀ o, run_programmer_mode_session p2 w2 = .ok o →
        o.status ≠ .completed := by
  constructor
  · have hstop : isStopResponse (planner 0 none) = true := by
      rcases h with h | h <;> simp [isStopResponse, h]
    have he : run_programmer_mode_session planner w =
        sessionLoop planner (19 + 1) 0 0 none [] w := rfl
    rw [he, sessionLoop_stop planner 19 0 0 none [] w hstop]
  · intro p2 w2 hp o ho
    have hstop : ∀ i lo, isStopResponse (p2 i lo) = false := by
      intro i lo
      simp [isStopResponse, (hp i lo).1, (hp i lo).2]
    have hst := sessionLoop_never_stop_status p2 hstop 20 0 0 none [] w2 o ho
    rw [hst]
    intro hc
    exact SessionStatus.noConfusion hc

/-- C4 witness: the constant TASK_COMPLETE planner stops the session
immediately. -/
theorem c4_completed_termination_witness :
    run_programmer_mode_session (fun _ _ => "TASK_COMPLETE") w0 =
      .ok { plannerCalls := 1, executions := 0, log := [],
            status := .completed, persisted := some ([], "completed") } :=
  (c4_completed_termination (fun _ _ => "TASK_COMPLETE") w0
    (Or.inr (by decide))).1

/-- C2 counterexample: a session whose planner always answers a
non-empty, non-TASK_COMPLETE directive does run 20 executions with a
log of length 20, but the status persisted with the final log is the
string completed (database.py line 218 hard-codes it), not
step_limit_reached as the claim states. -/
theorem c2_counterexample :
    (run_programmer_mode_session (fun _ _ => "SHELL true") w0).map
        (fun o => (o.plannerCalls, o.executions, o.log.length,
                   o.persisted.map (fun p => p.2), o.status)) =
      .ok (20, 20, 20, some "completed", .stepLimitReached) ∧
    ¬ (("completed" : String) = "step_limit_reached") :=
  ⟨by with_unfolding_all rfl, by decide⟩

/-- C2 amended: a session whose planner responses are never blank
(non-empty after stripping — a whitespace-only response would crash the
session on the missing command key) and never TASK_COMPLETE performs
exactly 20 planner calls and 20 executions, accumulates a log of length
20, exits through the step-limit path, and persists that log with the
task status recorded as completed (not step_limit_reached). -/
theorem c2_amended (planner : Nat → Option String → String) (w : World)
    (h : ∀ i lo, pyStrip (planner i lo) ≠ "" ∧
         pyUpper (pyStrip (planner i lo)) ≠ "TASK_COMPLETE") :
    ∃ o, run_programmer_mode_session planner w = .ok o ∧
      o.plannerCalls = 20 ∧ o.executions = 20 ∧ o.log.length = 20 ∧
      o.status = .stepLimitReached ∧
      o.persisted = some (o.log, "completed") := by
  obtain ⟨o, ho, h1, h2, h3, h4, h5⟩ :=
    sessionLoop_no_stop planner h 20 0 0 none [] w
  exact ⟨o, ho, by omega, by omega, by simpa using h3, h4, h5⟩

/-- C2 amended witness: the constant SHELL true planner. -/
theorem c2_amended_witness :
    ∃ o, run_programmer_mode_session (fun _ _ => "SHELL true") w0 = .ok o ∧
      o.plannerCalls = 20 ∧ o.executions = 20 ∧ o.log.length = 20 ∧
      o.status = .stepLimitReached ∧
      o.persisted = some (o.log, "completed") :=
  c2_amended (fun _ _ => "SHELL true") w0
    (fun _ _ => ⟨show pyStrip "SHELL true" ≠ "" by decide,
                 show pyUpper (pyStrip "SHELL true") ≠ "TASK_COMPLETE" by decide⟩)

/-- C7 counterexample: the directive TASK_COMPLETE now, whose first
whitespace-delimited token is TASK_COMPLETE, is not intercepted by the
session controller (which compares the whole stripped response) and is
executed by the shell backend — its shell output appears in the log, so
the session performs one execution rather than zero. -/
theorem c7_counterexample :
    (run_programmer_mode_session
        (fun i _ => if i = 0 then "TASK_COMPLETE now" else "TASK_COMPLETE")
        wShellRan).map (fun o => (o.executions, o.log, o.status)) =
      .ok (1, [{ command := some "TASK_COMPLETE now", stdout := "ran by shell",
                 stderr := "", returncode := 0 }], .completed) ∧
    ¬ ((1 : Nat) = 0) :=
  ⟨by with_unfolding_all rfl, by decide⟩

/-- C7 amended: only a planner response equal to TASK_COMPLETE after
stripping, case-insensitively, is intercepted by the session controller
before dispatch (zero executions); the executor itself has no
TASK_COMPLETE case, so any directive reaching it whose first token is
TASK_COMPLETE is executed as a literal shell script through the
backward-compatible fallback. -/
theorem c7_amended :
    (∀ (planner : Nat → Option String → String) (w : World),
      pyUpper (pyStrip (planner 0 none)) = "TASK_COMPLETE" →
      run_programmer_mode_session planner w =
        .ok { plannerCalls := 1, executions := 0, log := [],
              status := .completed, persisted := some ([], "completed") }) ∧
    (∀ (w : World) (ssh : Option SshTransport) (full : String),
      pyStrip full ≠ "" → pyUpper (splitMax1 full).1 = "TASK_COMPLETE" →
      execute_command w ssh full = .ok (execute_shell w full, w, noTrace)) := by
  constructor
  · intro planner w h
    have hstop : isStopResponse (planner 0 none) = true := by
      simp [isStopResponse, h]
    have he : run_programmer_mode_session planner w =
        sessionLoop planner (19 + 1) 0 0 none [] w := rfl
    rw [he, sessionLoop_stop planner 19 0 0 none [] w hstop]
  · intro w ssh full hne hk
    unfold execute_command
    rw [if_neg hne, hk,
        if_neg (by decide : ¬ ("TASK_COMPLETE" : String) = "SHELL"),
        if_neg (by decide : ¬ ("TASK_COMPLETE" : String) = "READ_FILE"),
        if_neg (by decide : ¬ ("TASK_COMPLETE" : String) = "WRITE_FILE"),
        if_neg (by decide : ¬ ("TASK_COMPLETE" : String) = "LIST_FILES")]

/-- C7 amended witness: a lower-case padded task_complete response is
intercepted with zero executions, while the directive TASK_COMPLETE now
is dispatched to the shell backend. -/
theorem c7_amended_witness :
    pyUpper (pyStrip " task_complete ") = "TASK_COMPLETE" ∧
    run_programmer_mode_session (fun _ _ => " task_complete ") w0 =
      .ok { plannerCalls := 1, executions := 0, log := [],
            status := .completed, persisted := some ([], "completed") } ∧
    execute_command w0 none "TASK_COMPLETE now" =
      .ok (execute_shell w0 "TASK_COMPLETE now", w0, noTrace) :=
  ⟨by decide, c7_amended.1 (fun _ _ => " task_complete ") w0 (by decide),
   c7_amended.2 w0 none "TASK_COMPLETE now" (by decide) (by decide)⟩

end Argentum
